import Mathlib

/-!
Shallow embedding of the warehouse-inventory service (`src/models.py`,
`src/schemas.py`, `src/routes.py`).

Modelling conventions:
* Machine integers of the source (SQLAlchemy `Integer` columns, Python `int`)
  are modelled as `ℤ`; Python is arbitrary precision, so no wrap-around.
* Timestamps (`models.Order.date`, a `DateTime`) are modelled as epoch
  seconds (`ℕ`); the pandas `Timedelta.days` of a non-negative time
  difference is floor division of the seconds by 86400.
* Python float results of `calculate_burn_rate` are idealised as exact
  rationals (`ℚ`); `round(x, 2)` is round-half-even to two decimals
  (`round2`), `int(x)` is truncation toward zero (`truncQ`).
* The database session is a pure state `DB`; `HTTPException` raised before
  any mutation is an `Except.error` carrying no state; `BackgroundTasks`
  alert dispatches are collected in a list of `Alert`s.
* A CSV row is modelled post-parse: an `Option ℤ` field is `none` when the
  source's `int(row[...])` conversion raises (a malformed field).
-/

/-- The `models.Item` table row: `id`, `name`, `current_stock`. -/
structure Item where
  id : ℤ
  name : String
  current_stock : ℤ
deriving DecidableEq

/-- The `models.Order` table row: `item_id`, `quantity`, and `date`
(creation timestamp, epoch seconds). -/
structure Order where
  item_id : ℤ
  quantity : ℤ
  date : ℕ
deriving DecidableEq

/-- The database session state: the `items` table and the append-only
`orders` table. -/
structure DB where
  items : List Item
  orders : List Order
deriving DecidableEq

/-- The query `db.query(models.Item).filter(models.Item.id == iid).first()`. -/
def findItem (db : DB) (iid : ℤ) : Option Item :=
  db.items.find? (fun i => i.id == iid)

/-- In-place mutation of the single ORM object returned by `first()`:
rewrite the first row whose `id` matches (`id` is a primary key, so at most
one row matches in a real database). -/
def updateFirst (l : List Item) (iid : ℤ) (g : Item → Item) : List Item :=
  match l with
  | [] => []
  | i :: is => if i.id == iid then g i :: is else i :: updateFirst is iid g

/-- The query `db.query(models.Order).filter(models.Order.item_id == iid).all()`. -/
def ordersFor (db : DB) (iid : ℤ) : List Order :=
  db.orders.filter (fun o => o.item_id == iid)

/-- Round-half-even to the nearest integer, the tie-breaking used by
Python's builtin `round`.  Computed on `num`/`den`: with `f = ⌊q⌋` and
`r = q - f ∈ [0,1)`, compare `2*r` with `1`, i.e. `2*(num - f*den)` with
`den`. -/
def roundHalfEven (q : ℚ) : ℤ :=
  let f := q.num.fdiv q.den
  let r2 := 2 * (q.num - f * q.den)
  if r2 < (q.den : ℤ) then f
  else if (q.den : ℤ) < r2 then f + 1
  else if f % 2 = 0 then f else f + 1

/-- Python's `round(x, 2)`: round half-even at the second decimal.
`Rat.divInt (100 * q.num) q.den` is the exact value `100 * q`. -/
def round2 (q : ℚ) : ℚ :=
  Rat.divInt (roundHalfEven (Rat.divInt (100 * q.num) (q.den : ℤ))) 100

/-- Python's `int(x)` on an exact rational value: truncation toward zero. -/
def truncQ (q : ℚ) : ℤ := q.num.tdiv q.den

/-- Maximum of a list of timestamps (`df['date'].max()`); `0` on the empty
list, which the source never queries. -/
def listMax : List ℕ → ℕ
  | [] => 0
  | d :: ds => ds.foldl max d

/-- Minimum of a list of timestamps (`df['date'].min()`). -/
def listMin : List ℕ → ℕ
  | [] => 0
  | d :: ds => ds.foldl min d

def secondsPerDay : ℕ := 86400

/-- `routes.py` line 24: `total_days = (df['date'].max() - df['date'].min()).days + 1`. -/
def spanDays (l : List Order) : ℕ :=
  (listMax (l.map Order.date) - listMin (l.map Order.date)) / secondsPerDay + 1

/-- `routes.py` line 25: `total_sold = df['qty'].sum()`. -/
def totalQty (l : List Order) : ℤ :=
  (l.map Order.quantity).sum

/-- `routes.py` lines 17-28: the body of `calculate_burn_rate` after the
order query, as a function of the queried order list. -/
def burnRateOrders (l : List Order) : ℚ :=
  match l with
  | [] => 0
  | _ :: _ =>
    let total_days := spanDays l
    let total_sold := totalQty l
    if total_days = 0 then (total_sold : ℚ)
    else round2 ((total_sold : ℚ) / (total_days : ℚ))

/-- `routes.py` lines 14-28: `calculate_burn_rate(item_id, db)`. -/
def calculate_burn_rate (db : DB) (item_id : ℤ) : ℚ :=
  burnRateOrders (ordersFor db item_id)

/-- The Burn-Rate Estimator as the spec (§4.1) words it: `0.0` for zero
orders, otherwise `total_qty / span_days` rounded to 2 decimal places,
with `span_days = (max timestamp - min timestamp) in whole days + 1` and
`total_qty` the sum of the quantities.  Written from the spec's words, to
be compared with `burnRateOrders`, which is written from the source. -/
def burnRateSpec (l : List Order) : ℚ :=
  if l = [] then 0
  else round2 ((totalQty l : ℚ) / (spanDays l : ℚ))

/-- The error taxonomy of the single-order endpoint: `HTTPException(404,
"Item not found")` and `HTTPException(400, "Not enough stock")`. -/
inductive OrderError where
  | itemNotFound
  | insufficientStock
deriving DecidableEq

/-- One dispatched low-stock alert: `send_sms_alert(item.name,
item.current_stock)`. -/
structure Alert where
  name : String
  stock : ℤ
deriving DecidableEq

/-- `routes.py` lines 51-71: `create_order`.  Fails before any mutation, or
atomically decrements the stock and appends one `Order` with the current
timestamp `now`, then collects a low-stock alert when the post-decrement
stock is below 5. -/
def create_order (db : DB) (item_id quantity : ℤ) (now : ℕ) :
    Except OrderError (DB × List Alert) :=
  match findItem db item_id with
  | none => .error .itemNotFound
  | some item =>
    if item.current_stock < quantity then .error .insufficientStock
    else
      let newStock := item.current_stock - quantity
      let db' : DB :=
        { items := updateFirst db.items item_id
            (fun i => { i with current_stock := i.current_stock - quantity })
          orders := db.orders ++ [{ item_id := item_id, quantity := quantity, date := now }] }
      let alerts := if newStock < 5 then [{ name := item.name, stock := newStock }] else []
      .ok (db', alerts)

/-- A parsed bulk-upload row; a field is `none` when `int(row[...])`
raises in the source. -/
structure CsvRow where
  item_id : Option ℤ
  quantity : Option ℤ
deriving DecidableEq

/-- A per-row error message, keyed by the row position `row`:
`"Row {index} Error: ..."` (malformed) or `"Row {index}: Item {id} not
found"`. -/
inductive RowError where
  | malformed (row : ℕ)
  | notFound (row : ℕ) (item_id : ℤ)
deriving DecidableEq

/-- The accumulated state of a batch upload: the session, the `processed`
counter, the `errors` list, and the collected background alerts. -/
structure BatchState where
  db : DB
  processed : ℕ
  errors : List RowError
  alerts : List Alert
deriving DecidableEq

def initBatch (db : DB) : BatchState :=
  { db := db, processed := 0, errors := [], alerts := [] }

/-- `routes.py` lines 83-104: one iteration of the `upload_csv` row loop.
Note the source performs no stock check on this path: the stock is
decremented unconditionally once the item is found. -/
def upload_csv_step (now : ℕ) (s : BatchState) (ir : ℕ × CsvRow) : BatchState :=
  match ir.2.item_id, ir.2.quantity with
  | some iid, some qty =>
    match findItem s.db iid with
    | none => { s with errors := s.errors ++ [.notFound ir.1 iid] }
    | some item =>
      let newStock := item.current_stock - qty
      let db' : DB :=
        { items := updateFirst s.db.items iid
            (fun i => { i with current_stock := i.current_stock - qty })
          orders := s.db.orders ++ [{ item_id := iid, quantity := qty, date := now }] }
      let alerts' :=
        if newStock < 5 then s.alerts ++ [{ name := item.name, stock := newStock }]
        else s.alerts
      { db := db', processed := s.processed + 1, errors := s.errors, alerts := alerts' }
  | _, _ => { s with errors := s.errors ++ [.malformed ir.1] }

/-- `routes.py` lines 73-107: `upload_csv`, the batch outgoing upload,
folded over the parsed rows with their positions (`df.iterrows()`). -/
def upload_csv (db : DB) (rows : List CsvRow) (now : ℕ) : BatchState :=
  (rows.enum).foldl (upload_csv_step now) (initBatch db)

/-- `routes.py` lines 119-133: one iteration of the `upload_income_csv`
row loop: increment the stock; no `Order` record, no alert. -/
def upload_income_step (s : BatchState) (ir : ℕ × CsvRow) : BatchState :=
  match ir.2.item_id, ir.2.quantity with
  | some iid, some qty =>
    match findItem s.db iid with
    | none => { s with errors := s.errors ++ [.notFound ir.1 iid] }
    | some _ =>
      { s with
        db := { s.db with
          items := updateFirst s.db.items iid
            (fun i => { i with current_stock := i.current_stock + qty }) }
        processed := s.processed + 1 }
  | _, _ => { s with errors := s.errors ++ [.malformed ir.1] }

/-- `routes.py` lines 109-136: `upload_income_csv`, the batch incoming
(restock) upload. -/
def upload_income_csv (db : DB) (rows : List CsvRow) : BatchState :=
  (rows.enum).foldl upload_income_step (initBatch db)

/-- One entry of the forecast report (`schemas.ForecastResponse`).  Dates
are day numbers (an offset from an arbitrary epoch). -/
structure Forecast where
  item_id : ℤ
  item_name : String
  current_stock : ℤ
  avg_daily_sales : ℚ
  days_until_out_of_stock : ℤ
  predicted_stockout_date : ℤ
  recommendation : String
deriving DecidableEq

/-- `routes.py` lines 150-157: the per-item forecast computation, as a
function of `today` (current date as a day number), the item's stock and
its average daily sales.  Returns `(days_remaining, runout_date,
recommendation)`; `int(item.current_stock / avg_sales)` is `truncQ`. -/
def forecast_core (today : ℤ) (stock : ℤ) (avg : ℚ) : ℤ × ℤ × String :=
  let p : ℤ × ℤ :=
    if avg = 0 then (999, today)
    else
      let d := truncQ ((stock : ℚ) / avg)
      (d, today + d)
  (p.1, p.2, if p.1 < 7 then "CRITICAL ORDER!" else "Healthy")

/-- `routes.py` lines 147-167: one loop iteration of `get_forecast`,
building the forecast entry of one item. -/
def forecastItem (today : ℤ) (db : DB) (item : Item) : Forecast :=
  let avg := calculate_burn_rate db item.id
  let p := forecast_core today item.current_stock avg
  { item_id := item.id, item_name := item.name, current_stock := item.current_stock,
    avg_daily_sales := avg, days_until_out_of_stock := p.1,
    predicted_stockout_date := p.2.1, recommendation := p.2.2 }

/-- One line of the analytics SMS: `"- {item.name}: {item.current_stock}
left ({days_remaining} days)"`. -/
def smsLine (f : Forecast) : String :=
  "- " ++ f.item_name ++ ": " ++ toString f.current_stock ++ " left (" ++
    toString f.days_until_out_of_stock ++ " days)"

/-- `routes.py` lines 138-182: `get_forecast` over all items, returning
the forecast list and the text of the analytics report handed to the
Notifier. -/
def get_forecast (today : ℤ) (db : DB) : List Forecast × String :=
  let forecasts := db.items.map (forecastItem today db)
  let sms_lines := ["Warehouse Analytics Report:"] ++
    (forecasts.filter (fun f => f.days_until_out_of_stock < 7)).map smsLine
  let sms_lines' :=
    if sms_lines.length = 1 then sms_lines ++ ["All inventory is currently Healthy!"]
    else sms_lines
  (forecasts, String.intercalate "\n" sms_lines')

/-! ### Helper lemmas -/

lemma q_div_natCast (a : ℤ) (b : ℕ) : (a : ℚ) / (b : ℚ) = Rat.divInt a b := by
  rw [Rat.divInt_eq_div]
  norm_num

lemma spanDays_pos (l : List Order) : 0 < spanDays l := Nat.succ_pos _

lemma burnRate_nonempty (l : List Order) (h : l ≠ []) :
    burnRateOrders l = round2 (Rat.divInt (totalQty l) (spanDays l)) := by
  match l with
  | [] => exact absurd rfl h
  | a :: t =>
    show (if spanDays (a :: t) = 0 then ((totalQty (a :: t) : ℚ)) else
      round2 ((totalQty (a :: t) : ℚ) / (spanDays (a :: t) : ℚ))) = _
    rw [if_neg (Nat.pos_iff_ne_zero.mp (spanDays_pos _)), q_div_natCast]

lemma roundHalfEven_nonneg (q : ℚ) (h : 0 ≤ q) : 0 ≤ roundHalfEven q := by
  have hnum : 0 ≤ q.num := Rat.num_nonneg.mpr h
  have hf : 0 ≤ q.num.fdiv q.den := Int.fdiv_nonneg hnum (Int.natCast_nonneg _)
  unfold roundHalfEven
  dsimp only
  split_ifs <;> omega

lemma round2_nonneg (q : ℚ) (h : 0 ≤ q) : 0 ≤ round2 q := by
  have hnum : 0 ≤ q.num := Rat.num_nonneg.mpr h
  have h1 : (0 : ℚ) ≤ Rat.divInt (100 * q.num) (q.den : ℤ) :=
    Rat.divInt_nonneg (by positivity) (Int.natCast_nonneg _)
  have h2 : 0 ≤ roundHalfEven (Rat.divInt (100 * q.num) (q.den : ℤ)) :=
    roundHalfEven_nonneg _ h1
  exact Rat.divInt_nonneg h2 (by norm_num)

lemma truncQ_eq_floor (q : ℚ) (h : 0 ≤ q) : truncQ q = ⌊q⌋ := by
  have hnum : 0 ≤ q.num := Rat.num_nonneg.mpr h
  rw [truncQ, Int.tdiv_eq_ediv hnum (Int.natCast_nonneg _), Rat.floor_def]

lemma totalQty_nonneg (l : List Order) (h : ∀ o ∈ l, 0 ≤ o.quantity) :
    0 ≤ totalQty l := by
  refine List.sum_nonneg ?_
  intro x hx
  rcases List.mem_map.mp hx with ⟨o, ho, rfl⟩
  exact h o ho

lemma find_updateFirst (l : List Item) (iid : ℤ) (g : Item → Item)
    (hg : ∀ i, (g i).id = i.id) :
    (updateFirst l iid g).find? (fun i => i.id == iid) =
      (l.find? (fun i => i.id == iid)).map g := by
  induction l with
  | nil => rfl
  | cons a t ih =>
    by_cases h : a.id = iid
    · rw [updateFirst, if_pos (by simpa using h)]
      rw [List.find?_cons_of_pos _ (by simp [hg, h]), List.find?_cons_of_pos _ (by simp [h])]
      rfl
    · rw [updateFirst, if_neg (by simpa using h)]
      rw [List.find?_cons_of_neg _ (by simp [h]), List.find?_cons_of_neg _ (by simp [h])]
      exact ih

lemma find_updateFirst_ne (l : List Item) (iid : ℤ) (g : Item → Item)
    (hg : ∀ i, (g i).id = i.id) (j : ℤ) (hj : j ≠ iid) :
    (updateFirst l iid g).find? (fun i => i.id == j) = l.find? (fun i => i.id == j) := by
  induction l with
  | nil => rfl
  | cons a t ih =>
    by_cases h : a.id = iid
    · rw [updateFirst, if_pos (by simpa using h)]
      have hne : ¬ a.id = j := by rw [h]; exact fun hh => hj hh.symm
      rw [List.find?_cons_of_neg _ (by simp [hg, h]; exact fun hh => hj hh.symm),
        List.find?_cons_of_neg _ (by simpa using hne)]
    · rw [updateFirst, if_neg (by simpa using h)]
      by_cases haj : a.id = j
      · rw [List.find?_cons_of_pos _ (by simpa using haj),
          List.find?_cons_of_pos _ (by simpa using haj)]
      · rw [List.find?_cons_of_neg _ (by simpa using haj),
          List.find?_cons_of_neg _ (by simpa using haj)]
        exact ih

lemma create_order_success (db : DB) (iid qty : ℤ) (now : ℕ) (item : Item)
    (hfind : findItem db iid = some item) (hstock : ¬ item.current_stock < qty) :
    create_order db iid qty now =
      .ok ({ items := updateFirst db.items iid
               (fun i => { i with current_stock := i.current_stock - qty }),
             orders := db.orders ++ [{ item_id := iid, quantity := qty, date := now }] },
           if item.current_stock - qty < 5 then
             [{ name := item.name, stock := item.current_stock - qty }]
           else []) := by
  unfold create_order
  rw [hfind]
  dsimp only
  rw [if_neg hstock]

lemma create_order_notFound (db : DB) (iid qty : ℤ) (now : ℕ)
    (hfind : findItem db iid = none) :
    create_order db iid qty now = .error .itemNotFound := by
  unfold create_order
  rw [hfind]

lemma create_order_insufficient (db : DB) (iid qty : ℤ) (now : ℕ) (item : Item)
    (hfind : findItem db iid = some item) (hstock : item.current_stock < qty) :
    create_order db iid qty now = .error .insufficientStock := by
  unfold create_order
  rw [hfind]
  dsimp only
  rw [if_pos hstock]

lemma create_order_success_shape (db : DB) (iid qty : ℤ) (now : ℕ) (item : Item)
    (hfind : findItem db iid = some item) (hlt : ¬ item.current_stock < qty) :
    ∃ db' alerts, create_order db iid qty now = .ok (db', alerts)
      ∧ db'.orders = db.orders ++ [{ item_id := iid, quantity := qty, date := now }]
      ∧ findItem db' iid = some { item with current_stock := item.current_stock - qty }
      ∧ ∀ j, j ≠ iid → findItem db' j = findItem db j := by
  refine ⟨_, _, create_order_success db iid qty now item hfind hlt, rfl, ?_, ?_⟩
  · show (updateFirst db.items iid
        (fun i => { i with current_stock := i.current_stock - qty })).find?
          (fun i => i.id == iid) = _
    rw [find_updateFirst db.items iid
      (fun i => { i with current_stock := i.current_stock - qty }) (fun i => rfl)]
    rw [show db.items.find? (fun i => i.id == iid) = some item from hfind]
    rfl
  · intro j hj
    show (updateFirst db.items iid
        (fun i => { i with current_stock := i.current_stock - qty })).find?
          (fun i => i.id == j) = _
    rw [find_updateFirst_ne db.items iid
      (fun i => { i with current_stock := i.current_stock - qty }) (fun i => rfl) j hj]
    rfl

lemma upload_csv_step_count (now : ℕ) (s : BatchState) (ir : ℕ × CsvRow) :
    (upload_csv_step now s ir).processed + (upload_csv_step now s ir).errors.length
      = s.processed + s.errors.length + 1 := by
  rcases ir with ⟨idx, oid, oqty⟩
  unfold upload_csv_step
  rcases oid with _ | iid
  · simp
    omega
  · rcases oqty with _ | qty
    · simp
      omega
    · dsimp only
      cases hf : findItem s.db iid
      · simp
        omega
      · dsimp only
        omega

lemma foldl_csv_count (now : ℕ) (rows : List (ℕ × CsvRow)) (s : BatchState) :
    (rows.foldl (upload_csv_step now) s).processed
        + (rows.foldl (upload_csv_step now) s).errors.length
      = s.processed + s.errors.length + rows.length := by
  induction rows generalizing s with
  | nil => simp
  | cons r t ih =>
    rw [List.foldl_cons, ih, upload_csv_step_count]
    simp
    omega

lemma income_step_frame (s : BatchState) (ir : ℕ × CsvRow) :
    (upload_income_step s ir).db.orders = s.db.orders
      ∧ (upload_income_step s ir).alerts = s.alerts := by
  rcases ir with ⟨idx, oid, oqty⟩
  unfold upload_income_step
  rcases oid with _ | iid
  · simp
  · rcases oqty with _ | qty
    · simp
    · dsimp only
      cases hf : findItem s.db iid <;> dsimp only <;> exact ⟨rfl, rfl⟩

lemma income_foldl_frame (rows : List (ℕ × CsvRow)) (s : BatchState) :
    (rows.foldl upload_income_step s).db.orders = s.db.orders
      ∧ (rows.foldl upload_income_step s).alerts = s.alerts := by
  induction rows generalizing s with
  | nil => exact ⟨rfl, rfl⟩
  | cons r t ih =>
    rw [List.foldl_cons]
    rcases ih (upload_income_step s r) with ⟨h1, h2⟩
    rcases income_step_frame s r with ⟨h3, h4⟩
    exact ⟨h1.trans h3, h2.trans h4⟩

lemma income_step_found (s : BatchState) (idx : ℕ) (iid qty : ℤ) (item : Item)
    (hfind : findItem s.db iid = some item) :
    upload_income_step s (idx, ⟨some iid, some qty⟩) =
      { s with
        db := { s.db with
          items := updateFirst s.db.items iid
            (fun i => { i with current_stock := i.current_stock + qty }) }
        processed := s.processed + 1 } := by
  unfold upload_income_step
  dsimp only
  rw [hfind]

lemma income_step_notFound (s : BatchState) (idx : ℕ) (iid qty : ℤ)
    (hfind : findItem s.db iid = none) :
    upload_income_step s (idx, ⟨some iid, some qty⟩) =
      { s with errors := s.errors ++ [.notFound idx iid] } := by
  unfold upload_income_step
  dsimp only
  rw [hfind]

/-! ### Claim theorems -/

/-- C1 (code bug): the batch outgoing upload (`upload_csv`) does NOT
preserve the non-negativity of `current_stock`.  With one item of stock 3
and a single well-formed CSV row ordering quantity 5, the row is processed
with no error and the item's stock is committed as `-2 < 0`: the source has
no stock check on this path, contradicting the spec's requirement that the
`current_stock ≥ 0` invariant be enforced by the Stock Mutation Service
(the single-order path `create_order` does perform the check). -/
theorem upload_csv_commits_negative_stock :
    (upload_csv ⟨[⟨1, "A", 3⟩], []⟩ [⟨some 1, some 5⟩] 0).errors = []
      ∧ (upload_csv ⟨[⟨1, "A", 3⟩], []⟩ [⟨some 1, some 5⟩] 0).processed = 1
      ∧ findItem (upload_csv ⟨[⟨1, "A", 3⟩], []⟩ [⟨some 1, some 5⟩] 0).db 1
          = some ⟨1, "A", -2⟩
      ∧ (-2 : ℤ) < 0 :=
  ⟨by decide, by decide, by decide, by decide⟩

/-- C2: the Burn-Rate Estimator returns 0 for an empty order history, and
for every order history it agrees with the spec's formula
`round(total_qty / span_days, 2)` with `span_days = (max - min timestamp)
in whole days + 1` (`burnRateSpec`); in particular two orders of quantity
5 and 7 placed 3 days (259200 s) apart yield exactly 3. -/
theorem calculate_burn_rate_matches_spec :
    (∀ db iid, calculate_burn_rate db iid = burnRateSpec (ordersFor db iid))
      ∧ burnRateOrders [] = 0
      ∧ burnRateOrders [⟨1, 5, 0⟩, ⟨1, 7, 259200⟩] = 3 := by
  refine ⟨?_, rfl, ?_⟩
  · intro db iid
    rw [calculate_burn_rate]
    cases h : ordersFor db iid with
    | nil => rfl
    | cons a t =>
      rw [burnRate_nonempty _ (by simp), burnRateSpec, if_neg (by simp), q_div_natCast]
  · rw [burnRate_nonempty _ (by decide)]
    decide

/-- C3: the Forecast Engine, for a non-negative stock and a non-negative
average (the Burn-Rate Estimator's contract): when `avg = 0` it reports
`days = 999`, date `today`, recommendation `"Healthy"`; otherwise
`days = ⌊stock / avg⌋` and date `today + days`; the recommendation is
`"CRITICAL ORDER!"` exactly when `days < 7` and `"Healthy"` otherwise. -/
theorem forecast_days_and_recommendation (today stock : ℤ) (avg : ℚ)
    (hstock : 0 ≤ stock) (havg : 0 ≤ avg) :
    (avg = 0 → forecast_core today stock avg = (999, today, "Healthy"))
      ∧ (avg ≠ 0 →
          (forecast_core today stock avg).1 = ⌊(stock : ℚ) / avg⌋
            ∧ (forecast_core today stock avg).2.1 = today + ⌊(stock : ℚ) / avg⌋)
      ∧ ((forecast_core today stock avg).2.2 = "CRITICAL ORDER!"
          ↔ (forecast_core today stock avg).1 < 7)
      ∧ ((forecast_core today stock avg).2.2 = "Healthy"
          ↔ ¬ (forecast_core today stock avg).1 < 7) := by
  refine ⟨?_, ?_, ?_, ?_⟩
  · intro h
    simp [forecast_core, h]
  · intro h
    have hdiv : (0 : ℚ) ≤ (stock : ℚ) / avg :=
      div_nonneg (by exact_mod_cast hstock) havg
    constructor <;> simp [forecast_core, h, truncQ_eq_floor _ hdiv]
  · have hr : (forecast_core today stock avg).2.2
        = if (forecast_core today stock avg).1 < 7 then "CRITICAL ORDER!" else "Healthy" := rfl
    rw [hr]
    by_cases hd : (forecast_core today stock avg).1 < 7 <;> simp [hd]
  · have hr : (forecast_core today stock avg).2.2
        = if (forecast_core today stock avg).1 < 7 then "CRITICAL ORDER!" else "Healthy" := rfl
    rw [hr]
    by_cases hd : (forecast_core today stock avg).1 < 7 <;> simp [hd]

/-- Witness for C3 at `today = 0`, `stock = 10`, `avg = 2`. -/
theorem forecast_days_and_recommendation_witness :
    (((2 : ℚ) = 0 → forecast_core 0 10 2 = (999, 0, "Healthy"))
      ∧ ((2 : ℚ) ≠ 0 →
          (forecast_core 0 10 2).1 = ⌊(10 : ℚ) / 2⌋
            ∧ (forecast_core 0 10 2).2.1 = 0 + ⌊(10 : ℚ) / 2⌋)
      ∧ ((forecast_core 0 10 2).2.2 = "CRITICAL ORDER!" ↔ (forecast_core 0 10 2).1 < 7)
      ∧ ((forecast_core 0 10 2).2.2 = "Healthy" ↔ ¬ (forecast_core 0 10 2).1 < 7)) :=
  forecast_days_and_recommendation 0 10 2 (by norm_num) (by norm_num)

/-- C4: the single outgoing order fails with `itemNotFound` when the item
is absent, with `insufficientStock` when `current_stock < quantity`, and
with no other error (every error is one of those two, under exactly those
conditions); failures return before any mutation (the error carries no
state), and success appends exactly one `Order` record with the given
quantity and the current timestamp, decrements the found item's stock by
the quantity, and leaves every other item unchanged. -/
theorem create_order_error_cases (db : DB) (iid qty : ℤ) (now : ℕ) :
    (findItem db iid = none → create_order db iid qty now = .error .itemNotFound)
      ∧ (∀ item, findItem db iid = some item → item.current_stock < qty →
          create_order db iid qty now = .error .insufficientStock)
      ∧ (∀ e, create_order db iid qty now = .error e →
          (e = .itemNotFound ∧ findItem db iid = none)
            ∨ ∃ item, findItem db iid = some item ∧ item.current_stock < qty
                ∧ e = .insufficientStock)
      ∧ (∀ item, findItem db iid = some item → ¬ item.current_stock < qty →
          ∃ db' alerts, create_order db iid qty now = .ok (db', alerts)
            ∧ db'.orders = db.orders ++ [{ item_id := iid, quantity := qty, date := now }]
            ∧ findItem db' iid = some { item with current_stock := item.current_stock - qty }
            ∧ ∀ j, j ≠ iid → findItem db' j = findItem db j) := by
  refine ⟨create_order_notFound db iid qty now, ?_, ?_, ?_⟩
  · intro item hfind hlt
    exact create_order_insufficient db iid qty now item hfind hlt
  · intro e he
    cases hf : findItem db iid with
    | none =>
      left
      rw [create_order_notFound db iid qty now hf] at he
      injection he with h
      exact ⟨h.symm, rfl⟩
    | some item =>
      by_cases hlt : item.current_stock < qty
      · right
        refine ⟨item, rfl, hlt, ?_⟩
        rw [create_order_insufficient db iid qty now item hf hlt] at he
        injection he with h
        exact h.symm
      · rw [create_order_success db iid qty now item hf hlt] at he
        exact absurd he (by simp)
  · intro item hfind hlt
    exact create_order_success_shape db iid qty now item hfind hlt

/-- Witness for C4: a missing item, an insufficient-stock order, and a
successful order on a one-item database. -/
theorem create_order_error_cases_witness :
    create_order ⟨[⟨1, "A", 10⟩], []⟩ 99 1 0 = .error .itemNotFound
      ∧ create_order ⟨[⟨1, "A", 10⟩], []⟩ 1 11 0 = .error .insufficientStock
      ∧ ∃ db' alerts, create_order ⟨[⟨1, "A", 10⟩], []⟩ 1 4 0 = .ok (db', alerts)
          ∧ db'.orders = ([] : List Order) ++ [{ item_id := 1, quantity := 4, date := 0 }]
          ∧ findItem db' 1 = some { id := 1, name := "A", current_stock := (10 : ℤ) - 4 }
          ∧ ∀ j, j ≠ 1 → findItem db' j = findItem ⟨[⟨1, "A", 10⟩], []⟩ j := by
  refine ⟨(create_order_error_cases ⟨[⟨1, "A", 10⟩], []⟩ 99 1 0).1 (by decide),
    (create_order_error_cases ⟨[⟨1, "A", 10⟩], []⟩ 1 11 0).2.1 ⟨1, "A", 10⟩ (by decide) (by decide),
    ?_⟩
  obtain ⟨db', alerts, h1, h2, h3, h4⟩ :=
    (create_order_error_cases ⟨[⟨1, "A", 10⟩], []⟩ 1 4 0).2.2.2 ⟨1, "A", 10⟩ (by decide) (by decide)
  exact ⟨db', alerts, h1, h2, h3, h4⟩

/-- C5 (counterexample to the claim as stated): a non-empty history with a
negative quantity yields a negative burn rate, and a non-empty history of
quantity 0 yields burn rate 0, so the result is neither always `≥ 0` for
non-empty histories nor `= 0` only for the empty history. -/
theorem burn_rate_nonneg_counterexample :
    burnRateOrders [⟨1, -1, 0⟩] < 0
      ∧ burnRateOrders [⟨1, 0, 0⟩] = 0 ∧ ([⟨1, 0, 0⟩] : List Order) ≠ [] := by
  refine ⟨?_, ?_, by decide⟩
  · rw [burnRate_nonempty _ (by decide)]
    decide
  · rw [burnRate_nonempty _ (by decide)]
    decide

/-- C5 (amended): for every non-empty order history whose quantities are
all non-negative, the Burn-Rate Estimator result is `≥ 0` (the estimator
itself accepts any quantities without error — with negative quantities the
result can be negative, and it can be 0 for a non-empty history). -/
theorem burn_rate_nonneg_amended (l : List Order) (h : l ≠ [])
    (hq : ∀ o ∈ l, 0 ≤ o.quantity) : 0 ≤ burnRateOrders l := by
  rw [burnRate_nonempty l h]
  exact round2_nonneg _ (Rat.divInt_nonneg (totalQty_nonneg l hq) (Int.natCast_nonneg _))

/-- Witness for the amended C5 on a one-order history. -/
theorem burn_rate_nonneg_amended_witness : 0 ≤ burnRateOrders [⟨2, 3, 0⟩] :=
  burn_rate_nonneg_amended [⟨2, 3, 0⟩] (by decide) (by decide)

/-- C6: a successful outgoing order dispatches exactly one low-stock alert
(carrying the item name and the new stock level) when the post-decrement
stock is `< 5`, and none otherwise: the collected alert list is a
one-element list or empty accordingly. -/
theorem create_order_low_stock_alert (db : DB) (iid qty : ℤ) (now : ℕ) (item : Item)
    (hfind : findItem db iid = some item) (hstock : ¬ item.current_stock < qty) :
    ∃ db', create_order db iid qty now =
      .ok (db', if item.current_stock - qty < 5 then
          [{ name := item.name, stock := item.current_stock - qty }]
        else []) :=
  ⟨_, create_order_success db iid qty now item hfind hstock⟩

/-- Witness for C6: reducing stock from 6 to 4 triggers exactly one alert;
reducing from 20 to 15 triggers none. -/
theorem create_order_low_stock_alert_witness :
    (∃ db', create_order ⟨[⟨1, "A", 6⟩], []⟩ 1 2 0 = .ok (db', [{ name := "A", stock := 4 }]))
      ∧ ∃ db', create_order ⟨[⟨2, "B", 20⟩], []⟩ 2 5 0 = .ok (db', []) := by
  constructor
  · obtain ⟨db', h⟩ :=
      create_order_low_stock_alert ⟨[⟨1, "A", 6⟩], []⟩ 1 2 0 ⟨1, "A", 6⟩ (by decide) (by decide)
    refine ⟨db', ?_⟩
    rw [h]
    norm_num
  · obtain ⟨db', h⟩ :=
      create_order_low_stock_alert ⟨[⟨2, "B", 20⟩], []⟩ 2 5 0 ⟨2, "B", 20⟩ (by decide) (by decide)
    refine ⟨db', ?_⟩
    rw [h]
    norm_num

/-- C7: the batch outgoing upload processes each row independently: every
row contributes exactly one unit to `processed` or exactly one entry to
the error list (keyed by its row position), so
`processed + |errors| = |rows|` and no failure aborts the batch; and on a
3-row batch whose second row names a nonexistent item, `processed = 2`,
the only error is for row position 1, rows 1 and 3 are committed, and the
succeeding row that drops stock below 5 still fires its alert. -/
theorem upload_csv_row_independence :
    (∀ db rows now,
      (upload_csv db rows now).processed + (upload_csv db rows now).errors.length
        = rows.length)
      ∧ upload_csv ⟨[⟨1, "A", 10⟩, ⟨2, "B", 6⟩], []⟩
          [⟨some 1, some 2⟩, ⟨some 99, some 1⟩, ⟨some 2, some 3⟩] 100 =
        { db := ⟨[⟨1, "A", 8⟩, ⟨2, "B", 3⟩], [⟨1, 2, 100⟩, ⟨2, 3, 100⟩]⟩,
          processed := 2, errors := [.notFound 1 99], alerts := [⟨"B", 3⟩] } := by
  refine ⟨?_, by decide⟩
  intro db rows now
  unfold upload_csv
  rw [foldl_csv_count]
  simp [initBatch, List.enum_length]

/-- C8: the batch incoming (restock) upload never touches the order log
and never collects an alert over a whole batch; one row on an existing
item increments exactly that item's stock by the row quantity and changes
nothing else (no order, no alert, no error, `processed + 1`); a row naming
a nonexistent item only appends a not-found error keyed by its row
position. -/
theorem upload_income_csv_frame (idx : ℕ) (iid qty : ℤ) :
    (∀ db rows, (upload_income_csv db rows).db.orders = db.orders
        ∧ (upload_income_csv db rows).alerts = [])
      ∧ (∀ s item, findItem s.db iid = some item →
          findItem (upload_income_step s (idx, ⟨some iid, some qty⟩)).db iid
              = some { item with current_stock := item.current_stock + qty }
            ∧ (∀ j, j ≠ iid →
                findItem (upload_income_step s (idx, ⟨some iid, some qty⟩)).db j
                  = findItem s.db j)
            ∧ (upload_income_step s (idx, ⟨some iid, some qty⟩)).db.orders = s.db.orders
            ∧ (upload_income_step s (idx, ⟨some iid, some qty⟩)).alerts = s.alerts
            ∧ (upload_income_step s (idx, ⟨some iid, some qty⟩)).errors = s.errors
            ∧ (upload_income_step s (idx, ⟨some iid, some qty⟩)).processed = s.processed + 1)
      ∧ (∀ s, findItem s.db iid = none →
          upload_income_step s (idx, ⟨some iid, some qty⟩)
            = { s with errors := s.errors ++ [.notFound idx iid] }) := by
  refine ⟨?_, ?_, ?_⟩
  · intro db rows
    exact income_foldl_frame rows.enum (initBatch db)
  · intro s item hfind
    rw [income_step_found s idx iid qty item hfind]
    refine ⟨?_, ?_, rfl, rfl, rfl, rfl⟩
    · show (updateFirst s.db.items iid
          (fun i => { i with current_stock := i.current_stock + qty })).find?
            (fun i => i.id == iid) = _
      rw [find_updateFirst s.db.items iid
        (fun i => { i with current_stock := i.current_stock + qty }) (fun i => rfl)]
      rw [show s.db.items.find? (fun i => i.id == iid) = some item from hfind]
      rfl
    · intro j hj
      show (updateFirst s.db.items iid
          (fun i => { i with current_stock := i.current_stock + qty })).find?
            (fun i => i.id == j) = _
      rw [find_updateFirst_ne s.db.items iid
        (fun i => { i with current_stock := i.current_stock + qty }) (fun i => rfl) j hj]
      rfl
  · intro s hfind
    exact income_step_notFound s idx iid qty hfind

/-- Witness for C8: restocking item 1 by 5 on a one-item state, and a row
naming the nonexistent item 7. -/
theorem upload_income_csv_frame_witness :
    (findItem (upload_income_step (initBatch ⟨[⟨1, "A", 3⟩], []⟩)
          (0, ⟨some 1, some 5⟩)).db 1
        = some { id := 1, name := "A", current_stock := (3 : ℤ) + 5 }
      ∧ (∀ j, j ≠ (1 : ℤ) →
          findItem (upload_income_step (initBatch ⟨[⟨1, "A", 3⟩], []⟩)
              (0, ⟨some 1, some 5⟩)).db j
            = findItem (initBatch ⟨[⟨1, "A", 3⟩], []⟩).db j)
      ∧ (upload_income_step (initBatch ⟨[⟨1, "A", 3⟩], []⟩) (0, ⟨some 1, some 5⟩)).db.orders
          = (initBatch ⟨[⟨1, "A", 3⟩], []⟩).db.orders
      ∧ (upload_income_step (initBatch ⟨[⟨1, "A", 3⟩], []⟩) (0, ⟨some 1, some 5⟩)).alerts
          = (initBatch ⟨[⟨1, "A", 3⟩], []⟩).alerts
      ∧ (upload_income_step (initBatch ⟨[⟨1, "A", 3⟩], []⟩) (0, ⟨some 1, some 5⟩)).errors
          = (initBatch ⟨[⟨1, "A", 3⟩], []⟩).errors
      ∧ (upload_income_step (initBatch ⟨[⟨1, "A", 3⟩], []⟩) (0, ⟨some 1, some 5⟩)).processed
          = (initBatch ⟨[⟨1, "A", 3⟩], []⟩).processed + 1)
      ∧ upload_income_step (initBatch ⟨[⟨1, "A", 3⟩], []⟩) (0, ⟨some 7, some 5⟩)
          = { initBatch ⟨[⟨1, "A", 3⟩], []⟩ with
              errors := (initBatch ⟨[⟨1, "A", 3⟩], []⟩).errors ++ [.notFound 0 7] } :=
  ⟨(upload_income_csv_frame 0 1 5).2.1 (initBatch ⟨[⟨1, "A", 3⟩], []⟩) ⟨1, "A", 3⟩ (by decide),
   (upload_income_csv_frame 0 7 5).2.2 (initBatch ⟨[⟨1, "A", 3⟩], []⟩) (by decide)⟩

/-- C9: `create_order` performs no positivity check on the quantity: for
an existing item with non-negative stock and any quantity `≤ 0` the
operation succeeds, the stock changes by the negation of the quantity (it
does not decrease), and an `Order` record with the non-positive quantity
is appended — entering the item's burn-rate history (`ordersFor`). -/
theorem create_order_no_positivity_check (db : DB) (iid qty : ℤ) (now : ℕ) (item : Item)
    (hfind : findItem db iid = some item) (hstock : 0 ≤ item.current_stock) (hq : qty ≤ 0) :
    ∃ db' alerts, create_order db iid qty now = .ok (db', alerts)
      ∧ db'.orders = db.orders ++ [{ item_id := iid, quantity := qty, date := now }]
      ∧ findItem db' iid = some { item with current_stock := item.current_stock - qty }
      ∧ item.current_stock ≤ item.current_stock - qty
      ∧ ordersFor db' iid = ordersFor db iid
          ++ [{ item_id := iid, quantity := qty, date := now }] := by
  have hlt : ¬ item.current_stock < qty := by omega
  obtain ⟨db', alerts, h1, h2, h3, _⟩ :=
    create_order_success_shape db iid qty now item hfind hlt
  refine ⟨db', alerts, h1, h2, h3, by omega, ?_⟩
  rw [ordersFor, ordersFor, h2, List.filter_append]
  simp

/-- Witness for C9: ordering quantity `-3` on an item with stock 5
succeeds and raises the stock to 8. -/
theorem create_order_no_positivity_check_witness :
    ∃ db' alerts, create_order ⟨[⟨1, "A", 5⟩], []⟩ 1 (-3) 0 = .ok (db', alerts)
      ∧ db'.orders = ([] : List Order) ++ [{ item_id := 1, quantity := -3, date := 0 }]
      ∧ findItem db' 1 = some { id := 1, name := "A", current_stock := (5 : ℤ) - (-3) }
      ∧ (5 : ℤ) ≤ (5 : ℤ) - (-3)
      ∧ ordersFor db' 1 = ordersFor ⟨[⟨1, "A", 5⟩], []⟩ 1
          ++ [{ item_id := 1, quantity := -3, date := 0 }] :=
  create_order_no_positivity_check ⟨[⟨1, "A", 5⟩], []⟩ 1 (-3) 0 ⟨1, "A", 5⟩
    (by decide) (by decide) (by decide)

/-- C10: for every non-empty order history the computed span of days is at
least 1 (hence nonzero), so the division in the Burn-Rate Estimator is
never by zero and the fallback branch for a zero span is unreachable: the
result is always the rounded quotient. -/
theorem spanDays_ge_one (l : List Order) (h : l ≠ []) :
    0 < spanDays l ∧ spanDays l ≠ 0
      ∧ burnRateOrders l = round2 (Rat.divInt (totalQty l) (spanDays l)) :=
  ⟨spanDays_pos l, Nat.pos_iff_ne_zero.mp (spanDays_pos l), burnRate_nonempty l h⟩

/-- Witness for C10 on a one-order history. -/
theorem spanDays_ge_one_witness :
    0 < spanDays [⟨1, 2, 0⟩] ∧ spanDays [⟨1, 2, 0⟩] ≠ 0
      ∧ burnRateOrders [⟨1, 2, 0⟩]
          = round2 (Rat.divInt (totalQty [⟨1, 2, 0⟩]) (spanDays [⟨1, 2, 0⟩])) :=
  spanDays_ge_one [⟨1, 2, 0⟩] (by decide)
